import Mathlib

/-!
Shallow embedding of the CodotakuGameEngine rendering demo
(`src/main.cpp`, `src/Model.cpp`, `src/AppState.{h,cpp}`, `src/utils.h`).

The embedding models:
* shader binary-format selection (`LoadShader`),
* asset path construction (`LoadShader`, `LoadImage`, `Model::Model`),
* the staging transfer-region byte layout and the copy-pass uploads
  (`SDL_AppInit`),
* the window-resize render-target recreation protocol (`SDL_AppEvent`,
  `CreateMsaaTexture`, `CreateDepthStencilTexture`),
* the per-frame command trace (`SDL_AppIterate`),
* the initialization step sequence and the shutdown hook (`SDL_AppInit`,
  `SDL_AppQuit`),
* the mesh-concatenation logic of the model importer glue (`Model::Model`).
-/

/-! ## Shader binary-format selection (`LoadShader`) -/

/-- The three shader binary formats that `LoadShader` probes, in its order. -/
inductive ShaderFormat
  | spirv
  | msl
  | dxil
deriving DecidableEq, Repr

/-- The subset of `{SPIRV, MSL, DXIL}` advertised by the device
(`SDL_GetGPUShaderFormats` restricted to the three bits the code tests). -/
structure BackendFormats where
  spirv : Bool
  msl : Bool
  dxil : Bool
deriving DecidableEq, Repr

/-- Format and entry-point selection of `LoadShader` (main.cpp lines 41-55):
test the SPIRV bit first, then MSL (entry point becomes "main0"),
then DXIL; otherwise throw "No supported shader formats available". -/
def selectShaderFormat (backendFormats : BackendFormats) :
    Except String (ShaderFormat × String) :=
  if backendFormats.spirv then .ok (.spirv, "main")
  else if backendFormats.msl then .ok (.msl, "main0")
  else if backendFormats.dxil then .ok (.dxil, "main")
  else .error "No supported shader formats available"

/-! ## Asset path construction -/

/-- Model of the path-append operator of std::filesystem: append with a
separator unless the
left side already ends in one. -/
def pathJoin (a b : String) : String :=
  a ++ (if a.endsWith "/" then "" else "/") ++ b

/-- Full path of a shader binary (main.cpp lines 45-54):
`BasePath / "Content/Shaders/Compiled/<FMT>" / (name + ext)`. -/
def shaderFullPath (basePath shaderFilename : String) (fmt : ShaderFormat) :
    String :=
  match fmt with
  | .spirv =>
      pathJoin (pathJoin basePath "Content/Shaders/Compiled/SPIRV")
        (shaderFilename ++ ".spv")
  | .msl =>
      pathJoin (pathJoin basePath "Content/Shaders/Compiled/MSL")
        (shaderFilename ++ ".msl")
  | .dxil =>
      pathJoin (pathJoin basePath "Content/Shaders/Compiled/DXIL")
        (shaderFilename ++ ".dxil")

/-- Full path used by `LoadImage` (main.cpp line 78):
`BasePath / "Content/Images" / imageFilename`. -/
def imageFullPath (basePath imageFilename : String) : String :=
  pathJoin (pathJoin basePath "Content/Images") imageFilename

/-- The path `Model::Model` passes to the importer (Model.cpp line 10):
a bare relative literal, with no base-path resolution. -/
def modelLoadPath : String := "Content/Models/viking_room.obj"

/-! ## Per-frame rotation angle (`SDL_AppIterate`, main.cpp line 455) -/

/-- Model of `glm::radians`, parameterized by the value of pi:
`degrees * pi / 180`. -/
def glmRadians (pi degrees : ℚ) : ℚ := degrees * pi / 180

/-- The angle argument of the per-frame `rotate` call:
`glm::radians(static_cast<float>(ticks) * 0.1f)`, with the scalar
arithmetic taken exactly (0.1 as 1/10). -/
def rotationAngle (pi ticks : ℚ) : ℚ := glmRadians pi (ticks * (1 / 10))

/-! ## Staging transfer protocol (`SDL_AppInit`, main.cpp lines 293-358)

The transfer buffer is modelled as a byte list.  Mapping and the two span
copies become byte-splice writes at offsets 0 and `vertexBufferSize`;
the two copy-pass uploads become reads at the recorded source offsets. -/

/-- Overwrite `data.length` bytes of `region` starting at `offset`
(the effect of copying into a mapped span at that offset). -/
def writeBytes (region : List Nat) (offset : Nat) (data : List Nat) :
    List Nat :=
  region.take offset ++ data ++ region.drop (offset + data.length)

/-- Read `len` bytes of `region` starting at `offset`. -/
def readBytes (region : List Nat) (offset len : Nat) : List Nat :=
  (region.drop offset).take len

/-- Stage the mesh data: allocate a region of `vertexSize + indexSize`
bytes, copy the vertex bytes at offset 0 and the index bytes at offset
`vertexSize` (main.cpp lines 293-317). -/
def stageTransfer (vertexBytes indexBytes : List Nat) : List Nat :=
  let region := List.replicate (vertexBytes.length + indexBytes.length) 0
  writeBytes (writeBytes region 0 vertexBytes) vertexBytes.length indexBytes

/-- Destination buffers of the mesh copy pass. -/
inductive UploadDest
  | vertexBuffer
  | indexBuffer
deriving DecidableEq, Repr

/-- One `SDL_UploadToGPUBuffer` call: transfer-buffer source offset,
byte size, destination buffer. -/
structure BufferUpload where
  srcOffset : Nat
  size : Nat
  dest : UploadDest
deriving DecidableEq, Repr

/-- The two uploads recorded in the copy pass (main.cpp lines 344-358):
source offset 0 → vertex buffer, then source offset `vertexSize` →
index buffer. -/
def copyPassUploads (vertexSize indexSize : Nat) : List BufferUpload :=
  [⟨0, vertexSize, .vertexBuffer⟩, ⟨vertexSize, indexSize, .indexBuffer⟩]

/-- The bytes each destination receives: read the source range of each upload
out of the staged region. -/
def uploadedBytes (region : List Nat) (uploads : List BufferUpload) :
    List (UploadDest × List Nat) :=
  uploads.map fun u => (u.dest, readBytes region u.srcOffset u.size)

/-! ## Per-frame command trace (`SDL_AppIterate`, main.cpp lines 407-471) -/

/-- The `SDL_AppResult` values the callbacks return. -/
inductive AppResult
  | appContinue
  | appSuccess
  | appFailure
deriving DecidableEq, Repr

/-- The GPU commands a frame iteration can record on its command buffer,
plus the final submission. -/
inductive RenderCommand
  | beginRenderPass (msaaTexture resolveTexture depthTexture : Nat)
  | bindGraphicsPipeline
  | bindVertexBuffers
  | bindIndexBuffer
  | bindFragmentSamplers
  | pushVertexUniformData
  | drawIndexedPrimitives (numIndices numInstances firstIndex : Nat)
      (vertexOffset firstInstance : Nat)
  | endRenderPass
  | submitCommandBuffer
deriving DecidableEq, Repr

/-- Is the command a draw call? -/
def RenderCommand.isDraw : RenderCommand → Bool
  | .drawIndexedPrimitives _ _ _ _ _ => true
  | _ => false

/-- Is the command a resource bind? -/
def RenderCommand.isBind : RenderCommand → Bool
  | .bindGraphicsPipeline => true
  | .bindVertexBuffers => true
  | .bindIndexBuffer => true
  | .bindFragmentSamplers => true
  | _ => false

/-- Is the command a render-pass begin or end? -/
def RenderCommand.isRenderPass : RenderCommand → Bool
  | .beginRenderPass _ _ _ => true
  | .endRenderPass => true
  | _ => false

/-- One frame iteration, given the index list of the model, the current
render-target handles, and the outcome of
`SDL_WaitAndAcquireGPUSwapchainTexture`: `.error` when the acquisition
call itself fails (the code throws), `.ok none` when it succeeds but
yields no image (minimized window), `.ok (some tex)` when an image is
acquired.  Returns the recorded command trace and the `SDL_AppResult`. -/
def SDL_AppIterate (modelIndices : List Nat) (msaaTex depthTex : Nat)
    (acquired : Except String (Option Nat)) :
    Except String (List RenderCommand × AppResult) :=
  match acquired with
  | .error _ => .error "Could not acquire swapchain texture"
  | .ok none => .ok ([.submitCommandBuffer], .appContinue)
  | .ok (some swapchainTexture) =>
      .ok ([.beginRenderPass msaaTex swapchainTexture depthTex,
            .bindGraphicsPipeline,
            .bindVertexBuffers,
            .bindIndexBuffer,
            .bindFragmentSamplers,
            .pushVertexUniformData,
            .drawIndexedPrimitives modelIndices.length 1 0 0 0,
            .endRenderPass,
            .submitCommandBuffer], .appContinue)

/-! ## Window-resize render-target lifecycle
(`SDL_AppEvent`, `CreateMsaaTexture`, `CreateDepthStencilTexture`) -/

/-- The two window-sized render targets. -/
inductive TargetKind
  | msaa
  | depthStencil
deriving DecidableEq, Repr

/-- A GPU texture handle with its creation parameters. -/
structure GpuTexture where
  id : Nat
  kind : TargetKind
  width : Nat
  height : Nat
  format : Nat
  sampleCount : Nat
deriving DecidableEq, Repr

/-- The fields of `AppState` that the resize handler touches. -/
structure AppState where
  swapchainFormat : Nat
  depthStencilFormat : Nat
  sampleCount : Nat
  msaaTexture : Option GpuTexture
  depthStencilTexture : Option GpuTexture
deriving DecidableEq, Repr

/-- Release/create events on GPU textures, in program order. -/
inductive GpuEvent
  | releaseTexture (t : GpuTexture)
  | createTexture (t : GpuTexture)
deriving DecidableEq, Repr

/-- Model of `SDL_ReleaseGPUTexture(device, t)`: a no-op on a null handle. -/
def releaseTextureEvents : Option GpuTexture → List GpuEvent
  | none => []
  | some t => [.releaseTexture t]

/-- Model of `CreateMsaaTexture` (main.cpp lines 100-116): query the window
size,
create a color target with the swapchain format and the context sample
count, store it in `msaaTexture`.  `freshId` stands for the new
handle returned by `SDL_CreateGPUTexture`. -/
def CreateMsaaTexture (ctx : AppState) (w h freshId : Nat) :
    AppState × GpuTexture :=
  let t : GpuTexture :=
    { id := freshId, kind := .msaa, width := w, height := h,
      format := ctx.swapchainFormat, sampleCount := ctx.sampleCount }
  ({ ctx with msaaTexture := some t }, t)

/-- Model of `CreateDepthStencilTexture` (main.cpp lines 118-134): query the
window
size, create a depth/stencil target with `ctx.depthStencilFormat` and
the context sample count, store it in `depthStencilTexture`. -/
def CreateDepthStencilTexture (ctx : AppState) (w h freshId : Nat) :
    AppState × GpuTexture :=
  let t : GpuTexture :=
    { id := freshId, kind := .depthStencil, width := w, height := h,
      format := ctx.depthStencilFormat, sampleCount := ctx.sampleCount }
  ({ ctx with depthStencilTexture := some t }, t)

/-- The `SDL_EVENT_WINDOW_RESIZED` branch of `SDL_AppEvent`
(main.cpp lines 392-399): release the MSAA texture, recreate it,
release the depth/stencil texture, recreate it.  `w`/`h` are the
dimensions `SDL_GetWindowSize` reports inside the create calls;
`id1`/`id2` stand for the fresh handles. -/
def handleWindowResized (ctx : AppState) (w h id1 id2 : Nat) :
    AppState × List GpuEvent :=
  let ev1 := releaseTextureEvents ctx.msaaTexture
  let p1 := CreateMsaaTexture ctx w h id1
  let ev2 := releaseTextureEvents p1.1.depthStencilTexture
  let p2 := CreateDepthStencilTexture p1.1 w h id2
  (p2.1, ev1 ++ [.createTexture p1.2] ++ ev2 ++ [.createTexture p2.2])

/-- Remove the first occurrence of a texture from the live list
(the effect of releasing that handle). -/
def removeFirst (t : GpuTexture) : List GpuTexture → List GpuTexture
  | [] => []
  | x :: xs => if x = t then xs else x :: removeFirst t xs

/-- Apply one event to the set of live textures. -/
def applyEvent (live : List GpuTexture) : GpuEvent → List GpuTexture
  | .releaseTexture t => removeFirst t live
  | .createTexture t => t :: live

/-- Apply a sequence of events to the set of live textures. -/
def applyEvents (live : List GpuTexture) (events : List GpuEvent) :
    List GpuTexture :=
  events.foldl applyEvent live

/-- How many live textures of the given kind. -/
def liveCount (live : List GpuTexture) (k : TargetKind) : Nat :=
  (live.filter fun t => t.kind = k).length

/-- After every prefix of the event sequence, at most one instance of
each render-target kind is live. -/
def atMostOneLive (live : List GpuTexture) (events : List GpuEvent) : Prop :=
  ∀ n k, liveCount (applyEvents live (events.take n)) k ≤ 1

/-! ## Initialization step sequence (`SDL_AppInit`, main.cpp lines 136-383) -/

/-- The observable steps of `SDL_AppInit`, named after the calls. -/
inductive InitStep
  | initVideo
  | getBasePath
  | createWindow
  | createDevice
  | claimWindowForDevice
  | selectDepthStencilFormat
  | loadVertexShader
  | loadFragmentShader
  | createGraphicsPipeline
  | createMsaaTexture
  | createDepthStencilTexture
  | releaseVertexShader
  | releaseFragmentShader
  | createSampler
  | loadImage
  | createSampledTexture
  | loadModel
  | createVertexBuffer
  | createIndexBuffer
  | createTransferBuffer
  | mapTransferBuffer
  | copyVertexData
  | copyIndexData
  | unmapTransferBuffer
  | createTextureTransferBuffer
  | mapTextureTransferBuffer
  | copyPixelData
  | unmapTextureTransferBuffer
  | acquireTransferCommandBuffer
  | beginCopyPass
  | uploadVertexBufferData
  | uploadIndexBufferData
  | uploadTextureData
  | endCopyPass
  | submitTransferCommandBuffer
  | releaseTransferBuffer
  | releaseTextureTransferBuffer
  | destroySurface
  | showWindow
deriving DecidableEq, Repr

/-- Steps of `SDL_AppInit` in source order (main.cpp lines 136-383). -/
def appInitSteps : List InitStep :=
  [.initVideo, .getBasePath, .createWindow, .createDevice,
   .claimWindowForDevice, .selectDepthStencilFormat,
   .loadVertexShader, .loadFragmentShader,
   .createGraphicsPipeline,
   .createMsaaTexture, .createDepthStencilTexture,
   .releaseVertexShader, .releaseFragmentShader,
   .createSampler, .loadImage, .createSampledTexture, .loadModel,
   .createVertexBuffer, .createIndexBuffer,
   .createTransferBuffer, .mapTransferBuffer,
   .copyVertexData, .copyIndexData, .unmapTransferBuffer,
   .createTextureTransferBuffer, .mapTextureTransferBuffer,
   .copyPixelData, .unmapTextureTransferBuffer,
   .acquireTransferCommandBuffer, .beginCopyPass,
   .uploadVertexBufferData, .uploadIndexBufferData, .uploadTextureData,
   .endCopyPass, .submitTransferCommandBuffer,
   .releaseTransferBuffer, .releaseTextureTransferBuffer,
   .destroySurface, .showWindow]

/-- Does the init step use or release the vertex/fragment shader objects? -/
def referencesShaderObjects : InitStep → Bool
  | .loadVertexShader => true
  | .loadFragmentShader => true
  | .createGraphicsPipeline => true
  | .releaseVertexShader => true
  | .releaseFragmentShader => true
  | _ => false

/-! ## Shutdown hook (`SDL_AppQuit`, main.cpp lines 473-474) -/

/-- The long-lived members of the GPU Resource Set. -/
inductive GpuResource
  | pipeline
  | vertexBuffer
  | indexBuffer
  | sampledTexture
  | sampler
  | msaaTexture
  | depthStencilTexture
deriving DecidableEq, Repr

/-- Actions a shutdown path could take. -/
inductive QuitAction
  | releaseResource (r : GpuResource)
  | destroyDevice
deriving DecidableEq, Repr

/-- The body of `SDL_AppQuit` (main.cpp lines 473-474) is empty: it
performs no action. -/
def appQuitActions : List QuitAction := []

/-! ## Mesh concatenation (`Model::Model`, Model.cpp lines 8-33) -/

/-- A vertex as built by the importer loop: position and UV. -/
structure Vertex where
  position : ℚ × ℚ × ℚ
  uv : ℚ × ℚ
deriving DecidableEq, Repr

/-- One imported mesh: its vertices and its faces, each face a list of
mesh-local indices. -/
structure MeshData where
  vertices : List Vertex
  faces : List (List Nat)
deriving DecidableEq, Repr

/-- The indices a single mesh contributes: the index lists of its faces,
appended in face order, unchanged. -/
def meshLocalIndices (m : MeshData) : List Nat :=
  m.faces.foldl (fun acc f => acc ++ f) []

/-- The `Model::Model` import loop (Model.cpp lines 15-32): for each mesh
of the scene, push all its vertices onto `vertices`, then push each
indices of each face onto `indices` unchanged. -/
def buildModel (scene : List MeshData) : List Vertex × List Nat :=
  scene.foldl
    (fun acc m => (acc.1 ++ m.vertices, acc.2 ++ meshLocalIndices m))
    ([], [])

/-- Spec-side reference: the concatenation that would make combined
indices refer to combined-vertex positions, shifting the indices of each mesh by the number of vertices contributed by earlier meshes. -/
def buildModelOffsetIndices (scene : List MeshData) : List Nat :=
  (scene.foldl
    (fun (acc : Nat × List Nat) m =>
      (acc.1 + m.vertices.length,
       acc.2 ++ (meshLocalIndices m).map (· + acc.1)))
    (0, [])).2

/-- The draw commands a frame records, given the acquisition outcome. -/
def frameDraws (modelIndices : List Nat) (msaaTex depthTex : Nat)
    (acquired : Except String (Option Nat)) : List RenderCommand :=
  match SDL_AppIterate modelIndices msaaTex depthTex acquired with
  | .ok (cmds, _) => cmds.filter RenderCommand.isDraw
  | .error _ => []

/-- A two-mesh scene: each mesh has one vertex and one one-corner face
with mesh-local index 0. -/
def demoTwoMeshScene : List MeshData :=
  [⟨[⟨(0, 0, 0), (0, 0)⟩], [[0]]⟩,
   ⟨[⟨(1, 1, 1), (1, 1)⟩], [[0]]⟩]

/-! ## Theorems -/

/-- C4: Shader binary-format selection is a deterministic function of the
advertised formats with preference order SPIRV (entry point "main"),
then MSL (entry point "main0"), then DXIL (entry point "main"); with
none of the three advertised, loading fails with the
unsupported-format error. -/
theorem shaderFormatSelection_deterministic (f : BackendFormats) :
    (f.spirv = true → selectShaderFormat f = .ok (.spirv, "main")) ∧
    (f.spirv = false → f.msl = true →
      selectShaderFormat f = .ok (.msl, "main0")) ∧
    (f.spirv = false → f.msl = false → f.dxil = true →
      selectShaderFormat f = .ok (.dxil, "main")) ∧
    (f.spirv = false → f.msl = false → f.dxil = false →
      selectShaderFormat f = .error "No supported shader formats available") := by
  refine ⟨fun h1 => ?_, fun h1 h2 => ?_, fun h1 h2 h3 => ?_,
    fun h1 h2 h3 => ?_⟩
  · simp [selectShaderFormat, h1]
  · simp [selectShaderFormat, h1, h2]
  · simp [selectShaderFormat, h1, h2, h3]
  · simp [selectShaderFormat, h1, h2, h3]

/-- Witness for C4 at the three spec instances: all three advertised
picks SPIRV, only DXIL picks DXIL, none fails. -/
theorem shaderFormatSelection_deterministic_witness :
    selectShaderFormat ⟨true, true, true⟩ = .ok (.spirv, "main") ∧
    selectShaderFormat ⟨false, false, true⟩ = .ok (.dxil, "main") ∧
    selectShaderFormat ⟨false, false, false⟩ =
      .error "No supported shader formats available" :=
  ⟨(shaderFormatSelection_deterministic ⟨true, true, true⟩).1 rfl,
   (shaderFormatSelection_deterministic ⟨false, false, true⟩).2.2.1 rfl rfl rfl,
   (shaderFormatSelection_deterministic ⟨false, false, false⟩).2.2.2 rfl rfl rfl⟩

/-- C7: the rotation angle passed to the rotation-matrix construction is
`radians(ticks * 0.1)`; in particular at `ticks = 10000` it equals
`radians(1000)`. -/
theorem rotationAngle_scaling (pi ticks : ℚ) :
    rotationAngle pi ticks = glmRadians pi (ticks * (1 / 10)) ∧
    rotationAngle pi 10000 = glmRadians pi 1000 := by
  constructor
  · rfl
  · unfold rotationAngle glmRadians
    norm_num

/-- C3: when swapchain acquisition succeeds but yields no image, the
iteration records no render pass, no bind and no draw, yet still
submits the command buffer and returns continue rather than an
error. -/
theorem emptyFrameStillSubmits (modelIndices : List Nat)
    (msaaTex depthTex : Nat) :
    ∃ cmds result,
      SDL_AppIterate modelIndices msaaTex depthTex (.ok none) =
        .ok (cmds, result) ∧
      cmds.filter RenderCommand.isDraw = [] ∧
      cmds.filter RenderCommand.isBind = [] ∧
      cmds.filter RenderCommand.isRenderPass = [] ∧
      RenderCommand.submitCommandBuffer ∈ cmds ∧
      result = .appContinue := by
  refine ⟨[.submitCommandBuffer], .appContinue, rfl, rfl, rfl, rfl, ?_, rfl⟩
  simp

/-- C8: for every frame that acquires a swapchain image, exactly one
indexed draw is issued, with arguments (full index count, 1 instance,
first index 0, vertex offset 0, first instance 0); for the quad index
list `[0,1,2,0,2,3]` the index count is 6. -/
theorem drawCallArguments (modelIndices : List Nat)
    (msaaTex depthTex tex : Nat) :
    frameDraws modelIndices msaaTex depthTex (.ok (some tex)) =
      [.drawIndexedPrimitives modelIndices.length 1 0 0 0] ∧
    frameDraws [0, 1, 2, 0, 2, 3] msaaTex depthTex (.ok (some tex)) =
      [.drawIndexedPrimitives 6 1 0 0 0] := by
  constructor <;> rfl

/-- The staged transfer region is exactly the vertex bytes followed by
the index bytes. -/
theorem stageTransfer_eq_append (vb ib : List Nat) :
    stageTransfer vb ib = vb ++ ib := by
  unfold stageTransfer writeBytes
  simp [List.drop_replicate, List.take_left, List.drop_left]

/-- C2: the staging layout places vertex bytes at
`[0, vertexCount*vertexStride)` and index bytes at
`[vertexCount*vertexStride, vertexCount*vertexStride + indexCount*4)`,
and the copy-pass uploads read the bytes of each destination from exactly
those offsets: the round trip is byte-for-byte exact. -/
theorem transferRegionRoundTrip (vertexCount vertexStride indexCount : Nat)
    (vertexBytes indexBytes : List Nat)
    (hv : vertexBytes.length = vertexCount * vertexStride)
    (hi : indexBytes.length = indexCount * 4) :
    (stageTransfer vertexBytes indexBytes).length =
      vertexCount * vertexStride + indexCount * 4 ∧
    readBytes (stageTransfer vertexBytes indexBytes) 0
      (vertexCount * vertexStride) = vertexBytes ∧
    readBytes (stageTransfer vertexBytes indexBytes)
      (vertexCount * vertexStride) (indexCount * 4) = indexBytes ∧
    uploadedBytes (stageTransfer vertexBytes indexBytes)
        (copyPassUploads (vertexCount * vertexStride) (indexCount * 4)) =
      [(.vertexBuffer, vertexBytes), (.indexBuffer, indexBytes)] := by
  rw [← hv, ← hi]
  refine ⟨?_, ?_, ?_, ?_⟩ <;>
    simp [stageTransfer_eq_append, readBytes, uploadedBytes, copyPassUploads,
      List.take_left, List.drop_left]

/-- Witness for C2 with 2 vertices of stride 2 and 1 index. -/
theorem transferRegionRoundTrip_witness :
    ([1, 2, 3, 4] : List Nat).length = 2 * 2 ∧
    ([9, 8, 7, 6] : List Nat).length = 1 * 4 ∧
    ((stageTransfer [1, 2, 3, 4] [9, 8, 7, 6]).length = 2 * 2 + 1 * 4 ∧
     readBytes (stageTransfer [1, 2, 3, 4] [9, 8, 7, 6]) 0 (2 * 2) =
       [1, 2, 3, 4] ∧
     readBytes (stageTransfer [1, 2, 3, 4] [9, 8, 7, 6]) (2 * 2) (1 * 4) =
       [9, 8, 7, 6] ∧
     uploadedBytes (stageTransfer [1, 2, 3, 4] [9, 8, 7, 6])
         (copyPassUploads (2 * 2) (1 * 4)) =
       [(.vertexBuffer, [1, 2, 3, 4]), (.indexBuffer, [9, 8, 7, 6])]) :=
  ⟨by decide, by decide,
   transferRegionRoundTrip 2 2 1 [1, 2, 3, 4] [9, 8, 7, 6]
     (by decide) (by decide)⟩

/-- C1: processing a window-resize event releases the existing MSAA and
depth/stencil targets and recreates both sized exactly to the newly
queried window dimensions, with the same format and sample count as
before; along every prefix of the event trace of the handler at most one
live instance of each target kind exists (each pre-resize handle is
released before its replacement is created). -/
theorem resizeRecreatesTargets (ctx : AppState) (w h id1 id2 : Nat)
    (mt dt : GpuTexture)
    (hw : 1 ≤ w) (hh : 1 ≤ h)
    (hm : ctx.msaaTexture = some mt)
    (hd : ctx.depthStencilTexture = some dt)
    (hmk : mt.kind = .msaa) (hdk : dt.kind = .depthStencil)
    (hmf : mt.format = ctx.swapchainFormat)
    (hms : mt.sampleCount = ctx.sampleCount)
    (hdf : dt.format = ctx.depthStencilFormat)
    (hds : dt.sampleCount = ctx.sampleCount) :
    ∃ mt' dt' : GpuTexture,
      (handleWindowResized ctx w h id1 id2).1.msaaTexture = some mt' ∧
      (handleWindowResized ctx w h id1 id2).1.depthStencilTexture =
        some dt' ∧
      mt'.kind = .msaa ∧ mt'.width = w ∧ mt'.height = h ∧
      mt'.format = mt.format ∧ mt'.sampleCount = mt.sampleCount ∧
      dt'.kind = .depthStencil ∧ dt'.width = w ∧ dt'.height = h ∧
      dt'.format = dt.format ∧ dt'.sampleCount = dt.sampleCount ∧
      (handleWindowResized ctx w h id1 id2).2 =
        [.releaseTexture mt, .createTexture mt',
         .releaseTexture dt, .createTexture dt'] ∧
      atMostOneLive [mt, dt] (handleWindowResized ctx w h id1 id2).2 := by
  refine ⟨{ id := id1, kind := .msaa, width := w, height := h,
            format := ctx.swapchainFormat, sampleCount := ctx.sampleCount },
          { id := id2, kind := .depthStencil, width := w, height := h,
            format := ctx.depthStencilFormat,
            sampleCount := ctx.sampleCount },
          rfl, rfl, rfl, rfl, rfl, hmf.symm, hms.symm, rfl, rfl, rfl,
          hdf.symm, hds.symm, ?_, ?_⟩
  · simp [handleWindowResized, releaseTextureEvents, CreateMsaaTexture,
      CreateDepthStencilTexture, hm, hd]
  · have hne :
        ({ id := id1, kind := .msaa, width := w, height := h,
           format := ctx.swapchainFormat,
           sampleCount := ctx.sampleCount } : GpuTexture) ≠ dt := by
      intro hEq
      rw [← hEq] at hdk
      exact absurd hdk (by simp)
    intro n k
    simp only [handleWindowResized, releaseTextureEvents,
      CreateMsaaTexture, CreateDepthStencilTexture, hm, hd]
    rcases n with _ | _ | _ | _ | n <;>
      cases k <;>
        simp [applyEvents, applyEvent, removeFirst, liveCount, hmk, hdk, hne]

/-- Witness for C1: a concrete context with 800×600 targets resized to
1×1. -/
theorem resizeRecreatesTargets_witness :
    ∃ mt' dt' : GpuTexture,
      (handleWindowResized
        ⟨5, 7, 4, some ⟨10, .msaa, 800, 600, 5, 4⟩,
          some ⟨11, .depthStencil, 800, 600, 7, 4⟩⟩ 1 1 12 13).1.msaaTexture =
        some mt' ∧
      (handleWindowResized
        ⟨5, 7, 4, some ⟨10, .msaa, 800, 600, 5, 4⟩,
          some ⟨11, .depthStencil, 800, 600, 7, 4⟩⟩ 1 1 12
        13).1.depthStencilTexture = some dt' ∧
      mt'.kind = .msaa ∧ mt'.width = 1 ∧ mt'.height = 1 ∧
      mt'.format = 5 ∧ mt'.sampleCount = 4 ∧
      dt'.kind = .depthStencil ∧ dt'.width = 1 ∧ dt'.height = 1 ∧
      dt'.format = 7 ∧ dt'.sampleCount = 4 ∧
      (handleWindowResized
        ⟨5, 7, 4, some ⟨10, .msaa, 800, 600, 5, 4⟩,
          some ⟨11, .depthStencil, 800, 600, 7, 4⟩⟩ 1 1 12 13).2 =
        [.releaseTexture ⟨10, .msaa, 800, 600, 5, 4⟩, .createTexture mt',
         .releaseTexture ⟨11, .depthStencil, 800, 600, 7, 4⟩,
         .createTexture dt'] ∧
      atMostOneLive
        [⟨10, .msaa, 800, 600, 5, 4⟩, ⟨11, .depthStencil, 800, 600, 7, 4⟩]
        (handleWindowResized
          ⟨5, 7, 4, some ⟨10, .msaa, 800, 600, 5, 4⟩,
            some ⟨11, .depthStencil, 800, 600, 7, 4⟩⟩ 1 1 12 13).2 :=
  resizeRecreatesTargets
    ⟨5, 7, 4, some ⟨10, .msaa, 800, 600, 5, 4⟩,
      some ⟨11, .depthStencil, 800, 600, 7, 4⟩⟩ 1 1 12 13
    ⟨10, .msaa, 800, 600, 5, 4⟩ ⟨11, .depthStencil, 800, 600, 7, 4⟩
    (by decide) (by decide) rfl rfl rfl rfl rfl rfl rfl rfl

/-- C5 counterexample: the shutdown hook releases nothing: the claimed
release of the pipeline (and the device destruction) does not occur in
`SDL_AppQuit`, whose body is empty. -/
theorem shutdownReleasesNothing :
    QuitAction.releaseResource GpuResource.pipeline ∉ appQuitActions ∧
    QuitAction.destroyDevice ∉ appQuitActions := by
  refine ⟨?_, ?_⟩ <;> simp [appQuitActions]

/-- C5 amended: when the quit signal ends the frame loop, the shutdown
hook performs no action at all: no GPU Resource Set member is released
and the device is not destroyed (`SDL_AppQuit` has an empty body;
cleanup is left to process exit). -/
theorem appQuitPerformsNoActions :
    appQuitActions = [] ∧
    (∀ r : GpuResource, QuitAction.releaseResource r ∉ appQuitActions) ∧
    QuitAction.destroyDevice ∉ appQuitActions := by
  refine ⟨rfl, fun r => ?_, ?_⟩ <;> simp [appQuitActions]

/-- C9 counterexample: the initialization step immediately after pipeline
creation is the MSAA target creation, not a shader release. -/
theorem shaderReleaseNotImmediate :
    appInitSteps.get?
        (appInitSteps.indexOf InitStep.createGraphicsPipeline + 1) =
      some InitStep.createMsaaTexture ∧
    InitStep.createMsaaTexture ≠ InitStep.releaseVertexShader ∧
    InitStep.createMsaaTexture ≠ InitStep.releaseFragmentShader := by
  decide

/-- C9 amended: the shader objects are released after pipeline creation,
but two initialization steps (the MSAA and depth/stencil target
creations) intervene; after the releases no step references the shader
objects again. -/
theorem shadersReleasedAfterPipeline :
    appInitSteps.indexOf InitStep.createGraphicsPipeline <
      appInitSteps.indexOf InitStep.releaseVertexShader ∧
    (appInitSteps.drop
        (appInitSteps.indexOf InitStep.createGraphicsPipeline + 1)).take 4 =
      [InitStep.createMsaaTexture, InitStep.createDepthStencilTexture,
       InitStep.releaseVertexShader, InitStep.releaseFragmentShader] ∧
    (appInitSteps.drop
        (appInitSteps.indexOf InitStep.releaseFragmentShader + 1)).all
      (fun s => !referencesShaderObjects s) = true := by
  decide

/-- Joining splits: `pathJoin a b` is `a` followed by an (empty or "/")
separator and
`b`. -/
theorem pathJoin_decomp (a b : String) :
    ∃ s, (s = "" ∨ s = "/") ∧ pathJoin a b = a ++ (s ++ b) :=
  ⟨if a.endsWith "/" then "" else "/", by split <;> simp,
   String.append_assoc a _ b⟩

/-- A double join decomposes into the base, the middle component and the
trailing component, with (empty or "/") separators. -/
theorem pathJoin_pathJoin_decomp (a b c : String) :
    ∃ s1 s2, (s1 = "" ∨ s1 = "/") ∧ (s2 = "" ∨ s2 = "/") ∧
      pathJoin (pathJoin a b) c = a ++ (s1 ++ (b ++ (s2 ++ c))) := by
  obtain ⟨s1, h1, e1⟩ := pathJoin_decomp a b
  obtain ⟨s2, h2, e2⟩ := pathJoin_decomp (pathJoin a b) c
  refine ⟨s1, s2, h1, h2, ?_⟩
  rw [e2, e1]
  simp [String.append_assoc]

/-- C6 counterexample: the model file is loaded from the bare
CWD-relative literal, not from a path resolved against the executable
base directory: with base directory "/opt/game/" the base-resolved
path differs from the path the code passes. -/
theorem modelPathNotBaseResolved :
    modelLoadPath = "Content/Models/viking_room.obj" ∧
    modelLoadPath ≠ pathJoin "/opt/game/" "Content/Models/viking_room.obj" := by
  refine ⟨rfl, ?_⟩
  decide

/-- C6 amended: shader-binary and image paths are resolved relative to
the executable base directory under the fixed layout
`Content/Shaders/Compiled/<FMT>/...` and `Content/Images/...`, but the
model file path is the CWD-relative literal
"Content/Models/viking_room.obj", not resolved against the base
directory. -/
theorem assetPathResolution (basePath shaderName imageName : String) :
    (∃ s1 s2, (s1 = "" ∨ s1 = "/") ∧ (s2 = "" ∨ s2 = "/") ∧
      shaderFullPath basePath shaderName .spirv =
        basePath ++ (s1 ++ ("Content/Shaders/Compiled/SPIRV" ++
          (s2 ++ (shaderName ++ ".spv"))))) ∧
    (∃ s1 s2, (s1 = "" ∨ s1 = "/") ∧ (s2 = "" ∨ s2 = "/") ∧
      shaderFullPath basePath shaderName .msl =
        basePath ++ (s1 ++ ("Content/Shaders/Compiled/MSL" ++
          (s2 ++ (shaderName ++ ".msl"))))) ∧
    (∃ s1 s2, (s1 = "" ∨ s1 = "/") ∧ (s2 = "" ∨ s2 = "/") ∧
      shaderFullPath basePath shaderName .dxil =
        basePath ++ (s1 ++ ("Content/Shaders/Compiled/DXIL" ++
          (s2 ++ (shaderName ++ ".dxil"))))) ∧
    (∃ s1 s2, (s1 = "" ∨ s1 = "/") ∧ (s2 = "" ∨ s2 = "/") ∧
      imageFullPath basePath imageName =
        basePath ++ (s1 ++ ("Content/Images" ++ (s2 ++ imageName)))) ∧
    modelLoadPath = "Content/Models/viking_room.obj" :=
  ⟨pathJoin_pathJoin_decomp basePath _ _,
   pathJoin_pathJoin_decomp basePath _ _,
   pathJoin_pathJoin_decomp basePath _ _,
   pathJoin_pathJoin_decomp basePath _ _,
   rfl⟩

/-- Unrolling the import fold: it appends the vertices of each mesh and
mesh-local indices onto the accumulators. -/
theorem buildModel_foldl (scene : List MeshData) (va : List Vertex)
    (ia : List Nat) :
    scene.foldl
        (fun acc m => (acc.1 ++ m.vertices, acc.2 ++ meshLocalIndices m))
        (va, ia) =
      (va ++ (scene.map MeshData.vertices).flatten,
       ia ++ (scene.map meshLocalIndices).flatten) := by
  induction scene generalizing va ia with
  | nil => simp
  | cons m ms ih => simp [ih, List.append_assoc]

/-- C10: the importer concatenates the vertices of all meshes in scene
order but appends the face indices unchanged (mesh-local, with no
per-mesh vertex offset); a combined index therefore addresses the
combined vertex list correctly for a single-mesh scene, while for the
two-mesh `demoTwoMeshScene` the built indices differ from the
offset-corrected ones and the second index addresses the wrong
vertex. -/
theorem modelIndicesAreMeshLocal :
    (∀ scene : List MeshData,
      (buildModel scene).1 = (scene.map MeshData.vertices).flatten ∧
      (buildModel scene).2 = (scene.map meshLocalIndices).flatten) ∧
    (∀ m : MeshData, (buildModel [m]).2 = buildModelOffsetIndices [m]) ∧
    (buildModel demoTwoMeshScene).2 ≠
      buildModelOffsetIndices demoTwoMeshScene ∧
    ((buildModel demoTwoMeshScene).1).get?
        (((buildModel demoTwoMeshScene).2).getD 1 0) ≠
      ((buildModel demoTwoMeshScene).1).get?
        ((buildModelOffsetIndices demoTwoMeshScene).getD 1 0) := by
  refine ⟨fun scene => ?_, fun m => ?_, ?_, ?_⟩
  · rw [buildModel, buildModel_foldl]
    simp
  · simp [buildModel, buildModelOffsetIndices]
  · decide
  · decide
